import Mathlib

/-!
Verification development for the on-street ticket CRUD service (`app.py`,
`create_database.py`).

The Python application is embedded shallowly:

* Python values that can appear in a merged form/JSON payload are modelled by
  `PyValue` (JSON null, booleans, numbers, strings, arrays).
* `_to_int` and `_parse_datetime` become `toIntPy` and `parseDatetimePy`,
  returning `Except PyErr _` because `int(...)` / `datetime.fromisoformat(...)`
  raise an uncaught `TypeError` on truthy non-string (resp. non-numeric)
  arguments — only `ValueError` is caught in the source.
* Naive `datetime` objects become the `DateTime` structure;
  `datetime.isoformat()` and `datetime.fromisoformat()` become `isoChars` /
  `fromIsoChars` (the version-independent core of CPython's parser:
  `YYYY-MM-DD[<sep>HH[:MM[:SS[.fff|.ffffff]]]]`).
* A SQLAlchemy ticket row becomes the `Ticket` structure; a table is a
  `List Ticket`.
-/

/-- A Python value reachable in the merged form/JSON payload dictionary of
`_populate_ticket_from_request` (form values are strings; JSON contributes
null, booleans, numbers, strings and arrays). -/
inductive PyValue where
  | vNone : PyValue
  | vBool : Bool → PyValue
  | vInt : Int → PyValue
  | vStr : String → PyValue
  | vList : List PyValue → PyValue

/-- Python truthiness (`bool(v)`) for the modelled values: `None` and `False`
are falsy, numbers are truthy iff nonzero, strings iff nonempty, lists iff
nonempty. -/
def pyTruthy : PyValue → Bool
  | .vNone => false
  | .vBool b => b
  | .vInt n => n != 0
  | .vStr s => s ≠ ""
  | .vList l => !l.isEmpty

/-- The Python exception kinds relevant here.  `_to_int` and `_parse_datetime`
catch only `ValueError`; a `TypeError` escapes the handler. -/
inductive PyErr where
  | typeError : PyErr
deriving DecidableEq

/-- `int(s)` for a string argument: optional surrounding whitespace, an
optional sign, then at least one decimal digit.  Returns `none` where CPython
raises `ValueError`. -/
def parseDecDigits (cs : List Char) : Option Nat :=
  if cs = [] then none
  else if cs.all Char.isDigit then
    some (cs.foldl (fun a c => 10 * a + (c.toNat - 48)) 0)
  else none

/-- String-to-int conversion of CPython's `int(str)` (whitespace stripped,
optional sign, decimal digits). -/
def pyStrToInt (s : String) : Option Int :=
  let cs := ((s.data.dropWhile Char.isWhitespace).reverse.dropWhile
    Char.isWhitespace).reverse
  match cs with
  | '+' :: rest => (parseDecDigits rest).map Int.ofNat
  | '-' :: rest => (parseDecDigits rest).map (fun n => -(n : Int))
  | rest => (parseDecDigits rest).map Int.ofNat

/-- `_to_int` from `app.py`:
`return int(value) if value else None` with only `ValueError` caught.
Falsy values map to `None`; a string is parsed (`ValueError` → `None`);
truthy booleans and ints convert numerically; a truthy list makes `int(...)`
raise `TypeError`, which is not caught. -/
def toIntPy (v : PyValue) : Except PyErr (Option Int) :=
  if pyTruthy v then
    match v with
    | .vStr s =>
      match pyStrToInt s with
      | some n => .ok (some n)
      | none => .ok none
    | .vInt n => .ok (some n)
    | .vBool b => .ok (some (if b then 1 else 0))
    | .vList _ => .error .typeError
    | .vNone => .ok none
  else
    .ok none

/-- A naive Python `datetime` (no timezone), as stored in the DATETIME
columns. -/
structure DateTime where
  year : Nat
  month : Nat
  day : Nat
  hour : Nat
  minute : Nat
  second : Nat
  micro : Nat
deriving DecidableEq, Repr

/-- Gregorian leap-year test (as in CPython's `datetime`). -/
def isLeap (y : Nat) : Bool :=
  y % 4 = 0 && (y % 100 ≠ 0 || y % 400 = 0)

/-- Days in a month (as in CPython's `datetime`). -/
def daysInMonth (y m : Nat) : Nat :=
  if m = 2 then (if isLeap y then 29 else 28)
  else if m = 4 ∨ m = 6 ∨ m = 9 ∨ m = 11 then 30
  else 31

/-- The range constraints CPython's `datetime` constructor enforces. -/
def DTValid (d : DateTime) : Prop :=
  1 ≤ d.year ∧ d.year ≤ 9999 ∧ 1 ≤ d.month ∧ d.month ≤ 12 ∧
  1 ≤ d.day ∧ d.day ≤ daysInMonth d.year d.month ∧
  d.hour ≤ 23 ∧ d.minute ≤ 59 ∧ d.second ≤ 59 ∧ d.micro ≤ 999999

instance (d : DateTime) : Decidable (DTValid d) := by
  unfold DTValid; infer_instance

/-- The decimal digit character for `n < 10`. -/
def digitOf (n : Nat) : Char := Char.ofNat (48 + n)

/-- Numeric value of a decimal digit character, `none` otherwise. -/
def toDigit (c : Char) : Option Nat :=
  if '0' ≤ c ∧ c ≤ '9' then some (c.toNat - 48) else none

/-- Two-digit zero-padded rendering (`"%02d"`), for `n < 100`. -/
def pad2 (n : Nat) : List Char := [digitOf (n / 10), digitOf (n % 10)]

/-- Four-digit zero-padded rendering (`"%04d"`), for `n < 10000`. -/
def pad4 (n : Nat) : List Char :=
  [digitOf (n / 1000), digitOf (n / 100 % 10), digitOf (n / 10 % 10),
   digitOf (n % 10)]

/-- Six-digit zero-padded rendering (`"%06d"`), for `n < 1000000`. -/
def pad6 (n : Nat) : List Char :=
  [digitOf (n / 100000), digitOf (n / 10000 % 10), digitOf (n / 1000 % 10),
   digitOf (n / 100 % 10), digitOf (n / 10 % 10), digitOf (n % 10)]

/-- Read two digit characters as a number. -/
def digits2 (a b : Char) : Option Nat := do
  let x ← toDigit a
  let y ← toDigit b
  pure (10 * x + y)

/-- Read four digit characters as a number. -/
def digits4 (a b c d : Char) : Option Nat := do
  let x ← toDigit a
  let y ← toDigit b
  let z ← toDigit c
  let w ← toDigit d
  pure (1000 * x + 100 * y + 10 * z + w)

/-- Read six digit characters as a number. -/
def digits6 (a b c d e f : Char) : Option Nat := do
  let x ← toDigit a
  let y ← toDigit b
  let z ← toDigit c
  let w ← toDigit d
  let u ← toDigit e
  let v ← toDigit f
  pure (100000 * x + 10000 * y + 1000 * z + 100 * w + 10 * u + v)

/-- `datetime.isoformat()` of a naive datetime:
`YYYY-MM-DDTHH:MM:SS` followed by `.ffffff` exactly when the microsecond
field is nonzero. -/
def isoChars (d : DateTime) : List Char :=
  pad4 d.year ++ '-' :: pad2 d.month ++ '-' :: pad2 d.day ++
  'T' :: pad2 d.hour ++ ':' :: pad2 d.minute ++ ':' :: pad2 d.second ++
  (if d.micro = 0 then [] else '.' :: pad6 d.micro)

/-- `datetime.isoformat()` as a string. -/
def isoformat (d : DateTime) : String := ⟨isoChars d⟩

/-- Fractional-second part of `fromisoformat`: exactly three or exactly six
digits after the dot (the format accepted by every CPython version). -/
def parseFrac (cs : List Char) : Option Nat :=
  match cs with
  | [a, b, c] => (do
      let x ← toDigit a
      let y ← toDigit b
      let z ← toDigit c
      pure ((100 * x + 10 * y + z) * 1000))
  | [a, b, c, d, e, f] => digits6 a b c d e f
  | _ => none

/-- Time part of `fromisoformat`: `HH[:MM[:SS[.fff|.ffffff]]]`, with the
range checks of the `time` constructor.  Returns
`(hour, minute, second, microsecond)`. -/
def parseTimeChars (cs : List Char) : Option (Nat × Nat × Nat × Nat) :=
  match cs with
  | h1 :: h2 :: rest => do
    let h ← digits2 h1 h2
    if h ≤ 23 then
      match rest with
      | [] => some (h, 0, 0, 0)
      | c :: rest1 =>
        if c = ':' then
          match rest1 with
          | m1 :: m2 :: rest2 => do
            let m ← digits2 m1 m2
            if m ≤ 59 then
              match rest2 with
              | [] => some (h, m, 0, 0)
              | c2 :: rest3 =>
                if c2 = ':' then
                  match rest3 with
                  | s1 :: s2 :: rest4 => do
                    let s ← digits2 s1 s2
                    if s ≤ 59 then
                      match rest4 with
                      | [] => some (h, m, s, 0)
                      | c3 :: fracCs =>
                        if c3 = '.' then
                          (parseFrac fracCs).map (fun f => (h, m, s, f))
                        else none
                    else none
                  | _ => none
                else none
            else none
          | _ => none
        else none
    else none
  | _ => none

/-- `datetime.fromisoformat` on the characters of the argument:
a `YYYY-MM-DD` date, optionally followed by a one-character separator and a
time part.  Returns `none` where CPython raises `ValueError`. -/
def fromIsoChars (cs : List Char) : Option DateTime :=
  match cs with
  | y1 :: y2 :: y3 :: y4 :: s1 :: mo1 :: mo2 :: s2 :: d1 :: d2 :: rest =>
    if s1 = '-' ∧ s2 = '-' then do
      let y ← digits4 y1 y2 y3 y4
      let mo ← digits2 mo1 mo2
      let dd ← digits2 d1 d2
      if 1 ≤ y ∧ 1 ≤ mo ∧ mo ≤ 12 ∧ 1 ≤ dd ∧ dd ≤ daysInMonth y mo then
        match rest with
        | [] => some ⟨y, mo, dd, 0, 0, 0, 0⟩
        | _sep :: timeCs =>
          (parseTimeChars timeCs).map
            (fun t => ⟨y, mo, dd, t.1, t.2.1, t.2.2.1, t.2.2.2⟩)
      else none
    else none
  | _ => none

/-- `datetime.fromisoformat` on a string. -/
def pyFromIso (s : String) : Option DateTime := fromIsoChars s.data

/-- `_parse_datetime` from `app.py`:
falsy input (`None`, `""`, `0`, `False`, `[]`) maps to `None`; a truthy
string is parsed with `fromisoformat`, `ValueError` mapping to `None`; a
truthy non-string makes `fromisoformat` raise `TypeError`, which is not
caught. -/
def parseDatetimePy (v : PyValue) : Except PyErr (Option DateTime) :=
  if pyTruthy v then
    match v with
    | .vStr s => .ok (pyFromIso s)
    | _ => .error .typeError
  else
    .ok none

/-- A row of `ocr_ticket` / `omc_ticket` as a SQLAlchemy object.  Columns that
the application converts on input (`Integer`, `DateTime`) are typed; columns
the application passes through raw (`String`/`Text` columns) hold the raw
payload value. -/
structure Ticket where
  id : Option Int := none
  camera_id : Option Int := none
  zone_name : PyValue := .vNone
  camera_ip : PyValue := .vNone
  zone_region : PyValue := .vNone
  spot_number : Option Int := none
  plate_number : PyValue := .vNone
  plate_code : PyValue := .vNone
  plate_city : PyValue := .vNone
  confidence : Option Int := none
  entry_time : Option DateTime := none
  exit_time : Option DateTime := none
  status : PyValue := .vNone
  parkonic_trip_id : Option Int := none
  image_base64 : PyValue := .vNone
  crop_image_path : PyValue := .vNone
  entry_image_path : PyValue := .vNone
  exit_image_path : PyValue := .vNone
  exit_clip_path : PyValue := .vNone
  created_at : Option DateTime := none
  process_time_in : Option DateTime := none
  process_time_out : Option DateTime := none

/-- Render an optional integer column value as a JSON value. -/
def optIntVal : Option Int → PyValue
  | none => .vNone
  | some n => .vInt n

/-- `self.t.isoformat() if self.t else None` for a DateTime column
(a `datetime` object is always truthy). -/
def optDTVal : Option DateTime → PyValue
  | none => .vNone
  | some d => .vStr (isoformat d)

/-- `TicketBase.as_dict` from `app.py`: the plain field-name-to-value mapping
returned by the JSON API, with every DateTime column rendered by
`isoformat()` or `None`. -/
def asDict (t : Ticket) : List (String × PyValue) :=
  [("id", optIntVal t.id),
   ("camera_id", optIntVal t.camera_id),
   ("zone_name", t.zone_name),
   ("camera_ip", t.camera_ip),
   ("zone_region", t.zone_region),
   ("spot_number", optIntVal t.spot_number),
   ("plate_number", t.plate_number),
   ("plate_code", t.plate_code),
   ("plate_city", t.plate_city),
   ("confidence", optIntVal t.confidence),
   ("entry_time", optDTVal t.entry_time),
   ("exit_time", optDTVal t.exit_time),
   ("status", t.status),
   ("parkonic_trip_id", optIntVal t.parkonic_trip_id),
   ("image_base64", t.image_base64),
   ("crop_image_path", t.crop_image_path),
   ("entry_image_path", t.entry_image_path),
   ("exit_image_path", t.exit_image_path),
   ("exit_clip_path", t.exit_clip_path),
   ("created_at", optDTVal t.created_at),
   ("process_time_in", optDTVal t.process_time_in),
   ("process_time_out", optDTVal t.process_time_out)]

/-- `payload.get(key)` on the merged form/JSON dictionary (modelled as an
association list with the dictionary's key-uniqueness): `None` when the key
is absent. -/
def dget (d : List (String × PyValue)) (k : String) : PyValue :=
  match d.lookup k with
  | some v => v
  | none => .vNone

/-- The typed result of `_extract_ticket_data`. -/
structure Extracted where
  camera_id : Option Int
  zone_name : PyValue
  camera_ip : PyValue
  zone_region : PyValue
  spot_number : Option Int
  plate_number : PyValue
  plate_code : PyValue
  plate_city : PyValue
  confidence : Option Int
  entry_time : Option DateTime
  exit_time : Option DateTime
  status : PyValue
  parkonic_trip_id : Option Int
  process_time_in : Option DateTime
  process_time_out : Option DateTime
  image_base64 : PyValue
  crop_image_path : PyValue
  entry_image_path : PyValue
  exit_image_path : PyValue
  exit_clip_path : PyValue

/-- `_extract_ticket_data` from `app.py`: integer fields through `_to_int`,
timestamp fields through `_parse_datetime`, all other fields passed through
raw.  The coercions are evaluated in the source's dict-literal order, and the
first uncaught `TypeError` aborts the request. -/
def extractTicketData (d : List (String × PyValue)) :
    Except PyErr Extracted := do
  let camera_id ← toIntPy (dget d "camera_id")
  let spot_number ← toIntPy (dget d "spot_number")
  let confidence ← toIntPy (dget d "confidence")
  let entry_time ← parseDatetimePy (dget d "entry_time")
  let exit_time ← parseDatetimePy (dget d "exit_time")
  let parkonic_trip_id ← toIntPy (dget d "parkonic_trip_id")
  let process_time_in ← parseDatetimePy (dget d "process_time_in")
  let process_time_out ← parseDatetimePy (dget d "process_time_out")
  pure
    { camera_id := camera_id
      zone_name := dget d "zone_name"
      camera_ip := dget d "camera_ip"
      zone_region := dget d "zone_region"
      spot_number := spot_number
      plate_number := dget d "plate_number"
      plate_code := dget d "plate_code"
      plate_city := dget d "plate_city"
      confidence := confidence
      entry_time := entry_time
      exit_time := exit_time
      status := dget d "status"
      parkonic_trip_id := parkonic_trip_id
      process_time_in := process_time_in
      process_time_out := process_time_out
      image_base64 := dget d "image_base64"
      crop_image_path := dget d "crop_image_path"
      entry_image_path := dget d "entry_image_path"
      exit_image_path := dget d "exit_image_path"
      exit_clip_path := dget d "exit_clip_path" }

/-- The results of the three `_save_uploaded_image` calls in
`_populate_ticket_from_request`: the stored relative path of each uploaded
file, or `none` when no file was sent for that slot. -/
structure Uploads where
  entry_image : Option String := none
  exit_image : Option String := none
  crop_image : Option String := none

/-- Python `a or b` for an optional saved path against a fallback value. -/
def pyOr (a : Option String) (b : PyValue) : PyValue :=
  match a with
  | some s => if s ≠ "" then .vStr s else b
  | none => b

/-- One iteration of the population loop for a raw (string) column:
`if value is None and key not in provided_keys: value = getattr(ticket, key)`
then `setattr`. -/
def mergeRaw (old newV : PyValue) (key : String)
    (provided : List String) : PyValue :=
  match newV with
  | .vNone => if key ∈ provided then .vNone else old
  | v => v

/-- One iteration of the population loop for a typed (`Integer` or
`DateTime`) column. -/
def mergeTyped {α : Type} (old newV : Option α) (key : String)
    (provided : List String) : Option α :=
  match newV with
  | none => if key ∈ provided then none else old
  | some v => some v

/-- The pure tail of `_populate_ticket_from_request` after
`_extract_ticket_data` has succeeded with `p`: let each saved upload path win
over the payload value for its path field (falling back to the payload value
when the key was provided, else to the current attribute), then write every
payload key back, keeping the current attribute for keys that were absent and
extracted as `None`.  Never touches `id` or `created_at`. -/
def populateMerge (t : Ticket) (data : List (String × PyValue))
    (files : Uploads) (p : Extracted) : Ticket :=
  let provided := data.map Prod.fst
  let entryPath := pyOr files.entry_image
    (if "entry_image_path" ∈ provided then p.entry_image_path
     else t.entry_image_path)
  let exitPath := pyOr files.exit_image
    (if "exit_image_path" ∈ provided then p.exit_image_path
     else t.exit_image_path)
  let cropPath := pyOr files.crop_image
    (if "crop_image_path" ∈ provided then p.crop_image_path
     else t.crop_image_path)
  { t with
      camera_id := mergeTyped t.camera_id p.camera_id "camera_id" provided
      zone_name := mergeRaw t.zone_name p.zone_name "zone_name" provided
      camera_ip := mergeRaw t.camera_ip p.camera_ip "camera_ip" provided
      zone_region := mergeRaw t.zone_region p.zone_region "zone_region" provided
      spot_number :=
        mergeTyped t.spot_number p.spot_number "spot_number" provided
      plate_number :=
        mergeRaw t.plate_number p.plate_number "plate_number" provided
      plate_code := mergeRaw t.plate_code p.plate_code "plate_code" provided
      plate_city := mergeRaw t.plate_city p.plate_city "plate_city" provided
      confidence := mergeTyped t.confidence p.confidence "confidence" provided
      entry_time := mergeTyped t.entry_time p.entry_time "entry_time" provided
      exit_time := mergeTyped t.exit_time p.exit_time "exit_time" provided
      status := mergeRaw t.status p.status "status" provided
      parkonic_trip_id :=
        mergeTyped t.parkonic_trip_id p.parkonic_trip_id "parkonic_trip_id"
          provided
      process_time_in :=
        mergeTyped t.process_time_in p.process_time_in "process_time_in"
          provided
      process_time_out :=
        mergeTyped t.process_time_out p.process_time_out "process_time_out"
          provided
      image_base64 :=
        mergeRaw t.image_base64 p.image_base64 "image_base64" provided
      crop_image_path :=
        mergeRaw t.crop_image_path cropPath "crop_image_path" provided
      entry_image_path :=
        mergeRaw t.entry_image_path entryPath "entry_image_path" provided
      exit_image_path :=
        mergeRaw t.exit_image_path exitPath "exit_image_path" provided
      exit_clip_path :=
        mergeRaw t.exit_clip_path p.exit_clip_path "exit_clip_path" provided }

/-- `_populate_ticket_from_request` from `app.py`: merge form over JSON into
one payload dictionary, run `_extract_ticket_data` (whose first uncaught
`TypeError` aborts the request), then apply `populateMerge`. -/
def populateTicket (t : Ticket) (data : List (String × PyValue))
    (files : Uploads) : Except PyErr Ticket := do
  let p ← extractTicketData data
  pure (populateMerge t data files p)

/-- The two ORM models (tables) a ticket-type token can select. -/
inductive TicketModel where
  | ocrTicket : TicketModel
  | omcTicket : TicketModel
deriving DecidableEq

/-- Python `str.lower()` (the tokens of interest are ASCII). -/
def pyLower (s : String) : String := ⟨s.data.map Char.toLower⟩

/-- `_get_ticket_model` from `app.py` up to the `abort(404)`:
`mapping.get(ticket_type.lower()) if ticket_type else None`, with `none`
meaning the route aborts with HTTP 404 before touching the store. -/
def getTicketModel (ticket_type : String) : Option TicketModel :=
  if ticket_type = "" then none
  else if pyLower ticket_type = "ocr" then some .ocrTicket
  else if pyLower ticket_type = "omc" then some .omcTicket
  else none

/-- Chronological key of a `DateTime`: strictly monotone in
(year, month, day, hour, minute, second, microsecond) for in-range values. -/
def dtKey (d : DateTime) : Nat :=
  ((((((d.year * 13 + d.month) * 32 + d.day) * 24 + d.hour) * 60 + d.minute)
    * 60 + d.second) * 1000000 + d.micro)

/-- Sort key used for `order_by(model.created_at.desc())`. -/
def createdKey (t : Ticket) : Nat :=
  match t.created_at with
  | none => 0
  | some d => dtKey d

/-- Descending `created_at` comparison (newest first). -/
def createdDesc (a b : Ticket) : Bool := createdKey b ≤ createdKey a

/-- The list/API-list query of `app.py`:
`model.query.order_by(model.created_at.desc()).all()` over the full table —
no filter, no pagination. -/
def listTickets (table : List Ticket) : List Ticket :=
  table.mergeSort createdDesc

/-- The sample OCR ticket inserted by `create_tables` when `ocr_ticket` is
empty (`now` is the `datetime.utcnow()` of the run). -/
def sampleOcr (now : DateTime) : Ticket :=
  { camera_id := some 101
    zone_name := .vStr "A1"
    camera_ip := .vStr "192.168.0.10"
    zone_region := .vStr "North"
    spot_number := some 12
    plate_number := .vStr "ABC123"
    plate_code := .vStr "DXB"
    plate_city := .vStr "Dubai"
    confidence := some 92
    entry_time := some now
    status := .vStr "open"
    crop_image_path := .vStr "/tmp/crop.jpg" }

/-- The sample OMC ticket inserted by `create_tables` when `omc_ticket` is
empty. -/
def sampleOmc (now : DateTime) : Ticket :=
  { camera_id := some 201
    zone_name := .vStr "B2"
    camera_ip := .vStr "192.168.0.11"
    zone_region := .vStr "South"
    spot_number := some 5
    plate_number := .vStr "XYZ789"
    plate_code := .vStr "AUH"
    plate_city := .vStr "Abu Dhabi"
    confidence := some 87
    entry_time := some now
    status := .vStr "pending"
    entry_image_path := .vStr "/tmp/entry.jpg"
    crop_image_path := .vStr "/tmp/crop.jpg" }

/-- The contents of the two ticket tables. -/
structure DBState where
  ocr : List Ticket
  omc : List Ticket

/-- Committing a new row: MySQL assigns the next auto-increment id. -/
def insertTicket (table : List Ticket) (t : Ticket) : List Ticket :=
  table ++ [{ t with id := some ((table.length : Int) + 1) }]

/-- `create_tables` from `app.py` (after `db.create_all()`): for each table,
`if not Model.query.first()` — i.e. exactly when the table is empty — add
the sample ticket; then commit. -/
def createTables (now : DateTime) (st : DBState) : DBState :=
  let st1 :=
    if st.ocr.isEmpty then { st with ocr := insertTicket st.ocr (sampleOcr now) }
    else st
  if st1.omc.isEmpty then { st1 with omc := insertTicket st1.omc (sampleOmc now) }
  else st1

/-- `datetime.utcnow().strftime("%Y%m%d%H%M%S%f")`: the 20-character
timestamp prefix of a saved upload filename. -/
def tsChars (d : DateTime) : List Char :=
  pad4 d.year ++ pad2 d.month ++ pad2 d.day ++ pad2 d.hour ++ pad2 d.minute ++
  pad2 d.second ++ pad6 d.micro

/-- Decoder for `tsChars`, used to prove the timestamp prefix injective. -/
def decodeTs (cs : List Char) : Option DateTime :=
  match cs with
  | [y1, y2, y3, y4, mo1, mo2, d1, d2, h1, h2, mi1, mi2, s1, s2,
     f1, f2, f3, f4, f5, f6] =>
    match digits4 y1 y2 y3 y4, digits2 mo1 mo2, digits2 d1 d2, digits2 h1 h2,
      digits2 mi1 mi2, digits2 s1 s2, digits6 f1 f2 f3 f4 f5 f6 with
    | some y, some mo, some dd, some h, some mi, some s, some f =>
      some ⟨y, mo, dd, h, mi, s, f⟩
    | _, _, _, _, _, _, _ => none
  | _ => none

/-- `_save_uploaded_image` filename composition from `app.py`:
`f"{timestamp}_{filename}"` where `filename` is the sanitized original name
(`secure_filename(upload.filename) or f"{category}.jpg"` — a pure function
of the original name and category, hence identical for identical uploads),
and `now` is the `datetime.utcnow()` drawn by this call. -/
def savedFileName (now : DateTime) (sanitized : String) : List Char :=
  tsChars now ++ '_' :: sanitized.data

/-- The stored relative path returned by `_save_uploaded_image`:
`uploads/<ticket_type.lower()>/<category>/<final_name>` relative to the
static root. -/
def savedRelPath (now : DateTime) (ticket_type category sanitized : String) :
    List Char :=
  ("uploads/" ++ pyLower ticket_type ++ "/" ++ category ++ "/").data ++
  savedFileName now sanitized


/-! ### Digit rendering / parsing lemmas -/

lemma toDigit_digitOf (k : Nat) (h : k < 10) : toDigit (digitOf k) = some k := by
  interval_cases k <;> decide

lemma digits2_pad (n : Nat) (h : n < 100) :
    digits2 (digitOf (n / 10)) (digitOf (n % 10)) = some n := by
  rw [digits2, toDigit_digitOf _ (by omega), toDigit_digitOf _ (by omega)]
  simp only [Option.bind_eq_bind, Option.some_bind, Option.pure_def,
    Option.some.injEq]
  omega

lemma digits4_pad (n : Nat) (h : n < 10000) :
    digits4 (digitOf (n / 1000)) (digitOf (n / 100 % 10))
      (digitOf (n / 10 % 10)) (digitOf (n % 10)) = some n := by
  rw [digits4, toDigit_digitOf _ (by omega), toDigit_digitOf _ (by omega),
    toDigit_digitOf _ (by omega), toDigit_digitOf _ (by omega)]
  simp only [Option.bind_eq_bind, Option.some_bind, Option.pure_def,
    Option.some.injEq]
  omega

lemma digits6_pad (n : Nat) (h : n < 1000000) :
    digits6 (digitOf (n / 100000)) (digitOf (n / 10000 % 10))
      (digitOf (n / 1000 % 10)) (digitOf (n / 100 % 10))
      (digitOf (n / 10 % 10)) (digitOf (n % 10)) = some n := by
  rw [digits6, toDigit_digitOf _ (by omega), toDigit_digitOf _ (by omega),
    toDigit_digitOf _ (by omega), toDigit_digitOf _ (by omega),
    toDigit_digitOf _ (by omega), toDigit_digitOf _ (by omega)]
  simp only [Option.bind_eq_bind, Option.some_bind, Option.pure_def,
    Option.some.injEq]
  omega

lemma daysInMonth_le (y m : Nat) : daysInMonth y m ≤ 31 := by
  unfold daysInMonth
  split_ifs <;> omega

/-- `fromisoformat` inverts `isoformat` on every constructible datetime. -/
lemma fromIsoChars_isoChars (d : DateTime) (h : DTValid d) :
    fromIsoChars (isoChars d) = some d := by
  obtain ⟨y, mo, dd, hh, mi, ss, f⟩ := d
  simp only [DTValid] at h
  obtain ⟨hy1, hy2, hmo1, hmo2, hdd1, hdd2, hhh, hmi, hss, hf⟩ := h
  have hdd100 : dd < 100 := by
    have := daysInMonth_le y mo; omega
  by_cases hf0 : f = 0
  · subst hf0
    simp only [isoChars, pad4, pad2, pad6, ite_true, if_pos, List.cons_append,
      List.nil_append, List.append_nil, if_true, eq_self_iff_true]
    simp only [fromIsoChars, digits4_pad y (by omega), digits2_pad mo (by omega),
      digits2_pad dd (by omega), Option.bind_eq_bind, Option.some_bind,
      hy1, hmo1, hmo2, hdd1, hdd2, if_true, and_self, and_true, true_and,
      parseTimeChars, digits2_pad hh (by omega),
      digits2_pad mi (by omega), digits2_pad ss (by omega), hhh, hmi, hss,
      reduceIte]
    rfl
  · simp only [isoChars, pad4, pad2, pad6, if_neg hf0, List.cons_append,
      List.nil_append, List.append_nil]
    simp only [fromIsoChars, digits4_pad y (by omega), digits2_pad mo (by omega),
      digits2_pad dd (by omega), Option.bind_eq_bind, Option.some_bind,
      hy1, hmo1, hmo2, hdd1, hdd2, if_true, and_self, and_true, true_and,
      parseTimeChars, digits2_pad hh (by omega),
      digits2_pad mi (by omega), digits2_pad ss (by omega), hhh, hmi, hss,
      parseFrac, digits6_pad f (by omega), reduceIte]
    rfl

/-- `fromisoformat ∘ isoformat` round-trip at the string level. -/
lemma pyFromIso_isoformat (d : DateTime) (h : DTValid d) :
    pyFromIso (isoformat d) = some d := by
  rw [pyFromIso, isoformat]
  exact fromIsoChars_isoChars d h

/-- The strftime decoder inverts the timestamp prefix rendering. -/
lemma decodeTs_tsChars (d : DateTime) (h : DTValid d) :
    decodeTs (tsChars d) = some d := by
  obtain ⟨y, mo, dd, hh, mi, ss, f⟩ := d
  simp only [DTValid] at h
  obtain ⟨hy1, hy2, hmo1, hmo2, hdd1, hdd2, hhh, hmi, hss, hf⟩ := h
  have hdd100 : dd < 100 := by
    have := daysInMonth_le y mo; omega
  simp only [tsChars, pad4, pad2, pad6, List.cons_append, List.nil_append,
    List.append_nil]
  simp only [decodeTs, digits4_pad y (by omega), digits2_pad mo (by omega),
    digits2_pad dd (by omega), digits2_pad hh (by omega),
    digits2_pad mi (by omega), digits2_pad ss (by omega),
    digits6_pad f (by omega)]

/-- The 20-character timestamp prefix is injective on constructible
datetimes. -/
lemma tsChars_injective (d1 d2 : DateTime) (h1 : DTValid d1) (h2 : DTValid d2)
    (he : tsChars d1 = tsChars d2) : d1 = d2 := by
  have hd := decodeTs_tsChars d1 h1
  rw [he, decodeTs_tsChars d2 h2] at hd
  exact (Option.some_injective _ hd).symm

lemma tsChars_length (d : DateTime) : (tsChars d).length = 20 := by
  simp [tsChars, pad4, pad2, pad6]

/-! ### Dictionary and monad helper lemmas -/

lemma exceptBind_ok {ε α β : Type} (a : α) (f : α → Except ε β) :
    (Except.ok a : Except ε α) >>= f = f a := rfl

lemma exceptBind_error {ε α β : Type} (e : ε) (f : α → Except ε β) :
    (Except.error e : Except ε α) >>= f = Except.error e := rfl

lemma lookup_eq_none_of_not_mem {β : Type} (d : List (String × β)) (k : String)
    (h : k ∉ d.map Prod.fst) : d.lookup k = none := by
  rw [List.lookup_eq_none_iff]
  intro p hp
  have hmem : p.1 ∈ d.map Prod.fst := List.mem_map_of_mem _ hp
  simp only [bne_iff_ne, ne_eq]
  intro hk
  exact h (hk ▸ hmem)

lemma mem_of_lookup_eq_some {β : Type} (d : List (String × β)) (k : String)
    (v : β) (h : d.lookup k = some v) : k ∈ d.map Prod.fst := by
  rw [List.lookup_eq_some_iff] at h
  obtain ⟨l1, l2, rfl, -⟩ := h
  simp

lemma dget_of_not_mem (d : List (String × PyValue)) (k : String)
    (h : k ∉ d.map Prod.fst) : dget d k = .vNone := by
  rw [dget, lookup_eq_none_of_not_mem d k h]

lemma dget_of_lookup_vNone (d : List (String × PyValue)) (k : String)
    (h : d.lookup k = some .vNone) : dget d k = .vNone := by
  rw [dget, h]

/-! ### Merge-step lemmas -/

lemma mergeTyped_absent {α : Type} (old : Option α) (k : String)
    (prov : List String) (hm : k ∉ prov) : mergeTyped old none k prov = old := by
  simp [mergeTyped, hm]

lemma mergeTyped_null {α : Type} (old : Option α) (k : String)
    (prov : List String) (hm : k ∈ prov) : mergeTyped old none k prov = none := by
  simp [mergeTyped, hm]

lemma mergeRaw_vNone_absent (old : PyValue) (k : String) (prov : List String)
    (hm : k ∉ prov) : mergeRaw old .vNone k prov = old := by
  simp [mergeRaw, hm]

lemma mergeRaw_vNone_null (old : PyValue) (k : String) (prov : List String)
    (hm : k ∈ prov) : mergeRaw old .vNone k prov = .vNone := by
  simp [mergeRaw, hm]

lemma mergeRaw_self (old : PyValue) (k : String) (prov : List String)
    (hm : k ∉ prov) : mergeRaw old old k prov = old := by
  cases old <;> simp [mergeRaw, hm]

/-- Characterization of a successful `_extract_ticket_data` run: every typed
field is the result of its coercion and every raw field is the raw payload
value. -/
lemma extract_fields (d : List (String × PyValue)) (p : Extracted)
    (hx : extractTicketData d = .ok p) :
    toIntPy (dget d "camera_id") = .ok p.camera_id ∧
    toIntPy (dget d "spot_number") = .ok p.spot_number ∧
    toIntPy (dget d "confidence") = .ok p.confidence ∧
    parseDatetimePy (dget d "entry_time") = .ok p.entry_time ∧
    parseDatetimePy (dget d "exit_time") = .ok p.exit_time ∧
    toIntPy (dget d "parkonic_trip_id") = .ok p.parkonic_trip_id ∧
    parseDatetimePy (dget d "process_time_in") = .ok p.process_time_in ∧
    parseDatetimePy (dget d "process_time_out") = .ok p.process_time_out ∧
    p.zone_name = dget d "zone_name" ∧
    p.camera_ip = dget d "camera_ip" ∧
    p.zone_region = dget d "zone_region" ∧
    p.plate_number = dget d "plate_number" ∧
    p.plate_code = dget d "plate_code" ∧
    p.plate_city = dget d "plate_city" ∧
    p.status = dget d "status" ∧
    p.image_base64 = dget d "image_base64" ∧
    p.crop_image_path = dget d "crop_image_path" ∧
    p.entry_image_path = dget d "entry_image_path" ∧
    p.exit_image_path = dget d "exit_image_path" ∧
    p.exit_clip_path = dget d "exit_clip_path" := by
  unfold extractTicketData at hx
  cases hc1 : toIntPy (dget d "camera_id") with
  | error e => rw [hc1, exceptBind_error] at hx; exact Except.noConfusion hx
  | ok v1 =>
  rw [hc1, exceptBind_ok] at hx
  cases hc2 : toIntPy (dget d "spot_number") with
  | error e => rw [hc2, exceptBind_error] at hx; exact Except.noConfusion hx
  | ok v2 =>
  rw [hc2, exceptBind_ok] at hx
  cases hc3 : toIntPy (dget d "confidence") with
  | error e => rw [hc3, exceptBind_error] at hx; exact Except.noConfusion hx
  | ok v3 =>
  rw [hc3, exceptBind_ok] at hx
  cases hc4 : parseDatetimePy (dget d "entry_time") with
  | error e => rw [hc4, exceptBind_error] at hx; exact Except.noConfusion hx
  | ok v4 =>
  rw [hc4, exceptBind_ok] at hx
  cases hc5 : parseDatetimePy (dget d "exit_time") with
  | error e => rw [hc5, exceptBind_error] at hx; exact Except.noConfusion hx
  | ok v5 =>
  rw [hc5, exceptBind_ok] at hx
  cases hc6 : toIntPy (dget d "parkonic_trip_id") with
  | error e => rw [hc6, exceptBind_error] at hx; exact Except.noConfusion hx
  | ok v6 =>
  rw [hc6, exceptBind_ok] at hx
  cases hc7 : parseDatetimePy (dget d "process_time_in") with
  | error e => rw [hc7, exceptBind_error] at hx; exact Except.noConfusion hx
  | ok v7 =>
  rw [hc7, exceptBind_ok] at hx
  cases hc8 : parseDatetimePy (dget d "process_time_out") with
  | error e => rw [hc8, exceptBind_error] at hx; exact Except.noConfusion hx
  | ok v8 =>
  rw [hc8, exceptBind_ok] at hx
  injection hx with hp
  subst hp
  exact ⟨rfl, rfl, rfl, rfl, rfl, rfl, rfl, rfl, rfl, rfl, rfl, rfl, rfl,
    rfl, rfl, rfl, rfl, rfl, rfl, rfl⟩

/-- A successful `_populate_ticket_from_request` run is exactly a successful
extraction followed by the pure merge. -/
lemma populate_ok (t : Ticket) (data : List (String × PyValue))
    (files : Uploads) (res : Ticket)
    (h : populateTicket t data files = .ok res) :
    ∃ p, extractTicketData data = .ok p ∧ res = populateMerge t data files p := by
  unfold populateTicket at h
  cases hx : extractTicketData data with
  | error e => rw [hx, exceptBind_error] at h; exact Except.noConfusion h
  | ok p =>
    rw [hx, exceptBind_ok] at h
    injection h with h
    exact ⟨p, rfl, h.symm⟩

/-! ### Claim theorems -/

/-- C2: ticket-type resolution is a total function of the case-insensitive
URL token: exactly the tokens whose lowercase form is `"ocr"` (resp. `"omc"`)
select the OCR (resp. OMC) table, and every other token — the empty token
included — yields `none`, i.e. the HTTP 404 abort taken before any store
access. -/
theorem ticket_type_resolution_total (t : String) :
    (getTicketModel t = some .ocrTicket ↔ pyLower t = "ocr") ∧
    (getTicketModel t = some .omcTicket ↔ pyLower t = "omc") ∧
    (getTicketModel t = none ↔ (pyLower t ≠ "ocr" ∧ pyLower t ≠ "omc")) := by
  unfold getTicketModel
  split_ifs with h0 hocr homc
  · subst h0
    refine ⟨?_, ?_, ?_⟩ <;> simp [pyLower]
  · simp [hocr]
  · simp [homc, hocr]
  · simp [hocr, homc]

/-- C3 counterexample: the claim says there is no error outcome for any
payload value of an integer field, but a truthy non-scalar JSON value — e.g.
the body `{"camera_id": [1]}` — makes `int(...)` raise a `TypeError` that
`_to_int` does not catch, so the whole extraction errors instead of storing
null. -/
theorem to_int_list_raises :
    toIntPy (.vList [.vInt 1]) = .error .typeError ∧
    extractTicketData [("camera_id", .vList [.vInt 1])] = .error .typeError := by
  exact ⟨rfl, rfl⟩

/-- C3 (amended): for every string, integer, boolean or absent value supplied
for an integer field, the coercion never errors; `"101"` is stored as the
integer `101`, and `""` and `"abc"` are stored as null. -/
theorem to_int_coercion :
    toIntPy (.vStr "101") = .ok (some 101) ∧
    toIntPy (.vStr "") = .ok none ∧
    toIntPy (.vStr "abc") = .ok none ∧
    (∀ s : String, ∃ r : Option Int, toIntPy (.vStr s) = .ok r) ∧
    (∀ n : Int, ∃ r : Option Int, toIntPy (.vInt n) = .ok r) ∧
    (∀ b : Bool, ∃ r : Option Int, toIntPy (.vBool b) = .ok r) ∧
    (∃ r : Option Int, toIntPy .vNone = .ok r) := by
  refine ⟨rfl, rfl, rfl, ?_, ?_, ?_, ⟨none, rfl⟩⟩
  · intro s
    unfold toIntPy
    cases h : pyTruthy (PyValue.vStr s)
    · exact ⟨none, by simp [h]⟩
    · cases hp : pyStrToInt s
      · exact ⟨none, by simp [h, hp]⟩
      · next n => exact ⟨some n, by simp [h, hp]⟩
  · intro n
    unfold toIntPy
    cases h : pyTruthy (PyValue.vInt n)
    · exact ⟨none, by simp [h]⟩
    · exact ⟨some n, by simp [h]⟩
  · intro b
    unfold toIntPy
    cases h : pyTruthy (PyValue.vBool b)
    · exact ⟨none, by simp [h]⟩
    · exact ⟨some (if b then 1 else 0), by simp [h]⟩

/-- C4 counterexample: the claim says any unparseable or absent timestamp
value maps to null with no error, but a truthy non-string JSON value — e.g.
the body `{"entry_time": 123}` — makes `datetime.fromisoformat` raise a
`TypeError` that `_parse_datetime` does not catch. -/
theorem parse_datetime_number_raises :
    parseDatetimePy (.vInt 123) = .error .typeError ∧
    extractTicketData [("entry_time", .vInt 123)] = .error .typeError := by
  exact ⟨rfl, rfl⟩

/-- C4 (amended): for every string or absent value supplied for a timestamp
field, the coercion never errors; `"2024-01-01T10:00:00"` parses to that
instant and `"not-a-date"` maps to null. -/
theorem parse_datetime_coercion :
    pyFromIso "2024-01-01T10:00:00" = some ⟨2024, 1, 1, 10, 0, 0, 0⟩ ∧
    parseDatetimePy (.vStr "2024-01-01T10:00:00")
      = .ok (some ⟨2024, 1, 1, 10, 0, 0, 0⟩) ∧
    parseDatetimePy (.vStr "not-a-date") = .ok none ∧
    parseDatetimePy .vNone = .ok none ∧
    (∀ s : String, ∃ r : Option DateTime, parseDatetimePy (.vStr s) = .ok r) := by
  refine ⟨rfl, rfl, rfl, rfl, ?_⟩
  intro s
  unfold parseDatetimePy
  cases h : pyTruthy (PyValue.vStr s)
  · exact ⟨none, by simp [h]⟩
  · exact ⟨pyFromIso s, by simp [h]⟩

/-- C10: a falsy payload value for an integer field — the JSON number `0`
included — is coerced to null, not to the integer `0`, because `_to_int`
evaluates `int(value) if value else None` and `0` is falsy. -/
theorem to_int_falsy_maps_to_none :
    (∀ v : PyValue, pyTruthy v = false → toIntPy v = .ok none) ∧
    toIntPy (.vInt 0) = .ok none ∧
    (extractTicketData [("camera_id", .vInt 0)]).map Extracted.camera_id
      = .ok none := by
  refine ⟨?_, rfl, rfl⟩
  intro v h
  unfold toIntPy
  simp [h]

/-- Witness for C10 at the concrete input `{"camera_id": 0}`. -/
theorem to_int_falsy_maps_to_none_witness :
    pyTruthy (PyValue.vInt 0) = false ∧ toIntPy (.vInt 0) = .ok none :=
  ⟨rfl, to_int_falsy_maps_to_none.1 (.vInt 0) rfl⟩

lemma isoformat_ne_empty (d : DateTime) : isoformat d ≠ "" := by
  simp [isoformat, String.ext_iff, isoChars, pad4]

/-- `_parse_datetime` recovers the instant from its `isoformat` rendering. -/
lemma parseDatetimePy_isoformat (d : DateTime) (h : DTValid d) :
    parseDatetimePy (.vStr (isoformat d)) = .ok (some d) := by
  have hne := isoformat_ne_empty d
  simp [parseDatetimePy, pyTruthy, hne, pyFromIso_isoformat d h]

/-- C5: `as_dict` renders every timestamp field (`entry_time`, `exit_time`,
`created_at`, `process_time_in`, `process_time_out`) as the ISO-8601 string
of the stored instant, or null when the field is null; and re-parsing any
serialized timestamp with `_parse_datetime` recovers exactly the stored
instant.  (`asDict` is by construction a pure projection of the record's
attributes.) -/
theorem as_dict_roundtrip (t : Ticket) :
    ((t.entry_time = none → (asDict t).lookup "entry_time" = some .vNone) ∧
     (∀ d, t.entry_time = some d → DTValid d →
       (asDict t).lookup "entry_time" = some (.vStr (isoformat d)) ∧
       parseDatetimePy (.vStr (isoformat d)) = .ok (some d))) ∧
    ((t.exit_time = none → (asDict t).lookup "exit_time" = some .vNone) ∧
     (∀ d, t.exit_time = some d → DTValid d →
       (asDict t).lookup "exit_time" = some (.vStr (isoformat d)) ∧
       parseDatetimePy (.vStr (isoformat d)) = .ok (some d))) ∧
    ((t.created_at = none → (asDict t).lookup "created_at" = some .vNone) ∧
     (∀ d, t.created_at = some d → DTValid d →
       (asDict t).lookup "created_at" = some (.vStr (isoformat d)) ∧
       parseDatetimePy (.vStr (isoformat d)) = .ok (some d))) ∧
    ((t.process_time_in = none →
       (asDict t).lookup "process_time_in" = some .vNone) ∧
     (∀ d, t.process_time_in = some d → DTValid d →
       (asDict t).lookup "process_time_in" = some (.vStr (isoformat d)) ∧
       parseDatetimePy (.vStr (isoformat d)) = .ok (some d))) ∧
    ((t.process_time_out = none →
       (asDict t).lookup "process_time_out" = some .vNone) ∧
     (∀ d, t.process_time_out = some d → DTValid d →
       (asDict t).lookup "process_time_out" = some (.vStr (isoformat d)) ∧
       parseDatetimePy (.vStr (isoformat d)) = .ok (some d))) := by
  have l1 : (asDict t).lookup "entry_time" = some (optDTVal t.entry_time) := rfl
  have l2 : (asDict t).lookup "exit_time" = some (optDTVal t.exit_time) := rfl
  have l3 : (asDict t).lookup "created_at" = some (optDTVal t.created_at) := rfl
  have l4 : (asDict t).lookup "process_time_in"
      = some (optDTVal t.process_time_in) := rfl
  have l5 : (asDict t).lookup "process_time_out"
      = some (optDTVal t.process_time_out) := rfl
  refine ⟨⟨?_, ?_⟩, ⟨?_, ?_⟩, ⟨?_, ?_⟩, ⟨?_, ?_⟩, ⟨?_, ?_⟩⟩ <;>
    first
    | (intro h; rw [l1, h]; rfl)
    | (intro d hd hv
       first
       | exact ⟨by rw [l1, hd]; rfl, parseDatetimePy_isoformat d hv⟩
       | exact ⟨by rw [l2, hd]; rfl, parseDatetimePy_isoformat d hv⟩
       | exact ⟨by rw [l3, hd]; rfl, parseDatetimePy_isoformat d hv⟩
       | exact ⟨by rw [l4, hd]; rfl, parseDatetimePy_isoformat d hv⟩
       | exact ⟨by rw [l5, hd]; rfl, parseDatetimePy_isoformat d hv⟩)
    | (intro h; rw [l2, h]; rfl)
    | (intro h; rw [l3, h]; rfl)
    | (intro h; rw [l4, h]; rfl)
    | (intro h; rw [l5, h]; rfl)

/-- The sample instant used by concrete witnesses. -/
def rtInstant : DateTime := ⟨2024, 1, 1, 10, 0, 0, 0⟩

/-- A stored record holding the sample instant. -/
def rtTicket : Ticket := { entry_time := some rtInstant }

/-- Witness for C5: serializing a record whose `entry_time` is
`2024-01-01T10:00:00` and re-parsing the rendered string recovers the
instant. -/
theorem as_dict_roundtrip_witness :
    (asDict rtTicket).lookup "entry_time"
      = some (.vStr (isoformat rtInstant)) ∧
    parseDatetimePy (.vStr (isoformat rtInstant)) = .ok (some rtInstant) :=
  (as_dict_roundtrip rtTicket).1.2 rtInstant rfl (by decide)

/-- C6: for every table state, listing (used by both the HTML route and the
JSON API GET) returns a permutation of the whole table — no filtering, no
pagination — in non-increasing `created_at` order (newest first). -/
theorem listing_complete_and_sorted (table : List Ticket) :
    (listTickets table).Perm table ∧
    (listTickets table).Pairwise (fun a b => createdKey b ≤ createdKey a) := by
  constructor
  · exact List.mergeSort_perm table createdDesc
  · have hs := @List.sorted_mergeSort Ticket createdDesc
      (fun a b c hab hbc => by
        simp only [createdDesc, decide_eq_true_eq] at *
        omega)
      (fun a b => by
        simp only [createdDesc, Bool.or_eq_true, decide_eq_true_eq]
        omega)
      table
    exact hs.imp (fun hab => by
      simpa only [createdDesc, decide_eq_true_eq] using hab)

/-- The `utcnow()` instant used by the seeding witness. -/
def seedInstant : DateTime := ⟨2024, 1, 1, 0, 0, 0, 0⟩

/-- C7: seeding is idempotent — `create_tables` inserts exactly one sample
record into a ticket table only when that table is empty, and when both
tables already hold at least one row it leaves the database unchanged. -/
theorem seeding_idempotent (now : DateTime) (st : DBState) :
    (st.ocr ≠ [] → st.omc ≠ [] → createTables now st = st) ∧
    (st.ocr = [] →
      (createTables now st).ocr = [{ sampleOcr now with id := some 1 }]) ∧
    (st.omc = [] →
      (createTables now st).omc = [{ sampleOmc now with id := some 1 }]) := by
  refine ⟨?_, ?_, ?_⟩
  · intro h1 h2
    have e1 : st.ocr.isEmpty = false := by simpa using h1
    have e2 : st.omc.isEmpty = false := by simpa using h2
    simp [createTables, e1, e2]
  · intro h1
    have e1 : st.ocr.isEmpty = true := by simpa using h1
    by_cases h2 : st.omc.isEmpty = true <;>
      simp [createTables, insertTicket, e1, h1, h2]
  · intro h2
    have e2 : st.omc.isEmpty = true := by simpa using h2
    by_cases h1 : st.ocr.isEmpty = true <;>
      simp [createTables, insertTicket, e2, h2, h1]

/-- A database state where both tables already hold one row. -/
def seededState : DBState :=
  ⟨[{ sampleOcr seedInstant with id := some 1 }],
   [{ sampleOmc seedInstant with id := some 1 }]⟩

/-- Witness for C7: re-running the bootstrap on a seeded database changes
nothing. -/
theorem seeding_idempotent_witness :
    createTables seedInstant seededState = seededState :=
  (seeding_idempotent seedInstant seededState).1
    (by simp [seededState]) (by simp [seededState])

/-- C9 counterexample: nothing prevents two concurrent `_save_uploaded_image`
calls from drawing the same `datetime.utcnow()` value (the scheme has no
uniqueness source other than the clock), and for equal draws the stored
paths coincide — so "for every two concurrent uploads the stored paths are
distinct" is false; the spec itself (§5) calls the safeguard probabilistic. -/
theorem saved_path_collision :
    ¬ (∀ t1 t2 : DateTime, DTValid t1 → DTValid t2 →
        savedRelPath t1 "ocr" "entry" "photo.jpg"
          ≠ savedRelPath t2 "ocr" "entry" "photo.jpg") := by
  intro hall
  exact hall ⟨2024, 1, 1, 0, 0, 0, 0⟩ ⟨2024, 1, 1, 0, 0, 0, 0⟩
    (by decide) (by decide) rfl

/-- C9 (amended): whenever the two uploads' `utcnow()` draws differ — in any
digit down to the microsecond — the stored paths are distinct, because the
filename starts with the fixed-width 20-character `%Y%m%d%H%M%S%f` prefix,
which is injective on constructible datetimes. -/
theorem saved_paths_distinct (t1 t2 : DateTime) (h1 : DTValid t1)
    (h2 : DTValid t2) (hne : t1 ≠ t2) (ty cat fn : String) :
    savedRelPath t1 ty cat fn ≠ savedRelPath t2 ty cat fn := by
  intro he
  apply hne
  unfold savedRelPath at he
  have h3 := List.append_cancel_left he
  unfold savedFileName at h3
  have h4 := (List.append_inj h3
    (by rw [tsChars_length, tsChars_length])).1
  exact tsChars_injective t1 t2 h1 h2 h4

/-- Witness for the amended C9: two uploads of `a.jpg` one microsecond apart
get distinct stored paths. -/
theorem saved_paths_distinct_witness :
    savedRelPath ⟨2024, 1, 1, 0, 0, 0, 0⟩ "ocr" "entry" "a.jpg"
      ≠ savedRelPath ⟨2024, 1, 1, 0, 0, 0, 1⟩ "ocr" "entry" "a.jpg" :=
  saved_paths_distinct ⟨2024, 1, 1, 0, 0, 0, 0⟩ ⟨2024, 1, 1, 0, 0, 0, 1⟩
    (by decide) (by decide) (by decide) "ocr" "entry" "a.jpg"

/-- C8: populating a record from a request never writes `id` or
`created_at` — after any successful create/edit population both fields equal
their values before the operation. -/
theorem populate_preserves_id_created_at (t : Ticket)
    (data : List (String × PyValue)) (files : Uploads) (res : Ticket)
    (h : populateTicket t data files = .ok res) :
    res.id = t.id ∧ res.created_at = t.created_at := by
  obtain ⟨p, -, rfl⟩ := populate_ok t data files res h
  exact ⟨rfl, rfl⟩

/-- The pre-existing record used by the frame witness. -/
def frameTicket : Ticket :=
  { id := some 5, status := .vStr "open", created_at := some rtInstant }

/-- The record produced by updating `frameTicket` with
`{"camera_id": "7"}`. -/
def frameResult : Ticket := { frameTicket with camera_id := some 7 }

/-- Witness for C8: an update payload `{"camera_id": "7"}` leaves `id = 5`
and the original `created_at` untouched. -/
theorem populate_preserves_id_created_at_witness :
    frameResult.id = frameTicket.id ∧
    frameResult.created_at = frameTicket.created_at :=
  populate_preserves_id_created_at frameTicket [("camera_id", .vStr "7")]
    ⟨none, none, none⟩ frameResult rfl

lemma pyOr_none (b : PyValue) : pyOr none b = b := rfl

lemma int_field_none (v : PyValue) (o : Option Int) (hv : v = .vNone)
    (he : toIntPy v = .ok o) : o = none := by
  subst hv
  have h0 : (Except.ok (none : Option Int) : Except PyErr (Option Int))
      = .ok o := he
  injection h0 with h0
  exact h0.symm

lemma dt_field_none (v : PyValue) (o : Option DateTime) (hv : v = .vNone)
    (he : parseDatetimePy v = .ok o) : o = none := by
  subst hv
  have h0 : (Except.ok (none : Option DateTime) : Except PyErr (Option DateTime))
      = .ok o := he
  injection h0 with h0
  exact h0.symm

/-- C1: `_populate_ticket_from_request` has merge-patch semantics.  For every
existing record, every payload and every successful population: a field whose
key is absent from the payload (and, for the three image-path fields, that
has no uploaded file replacement) retains its previous value, while a field
whose key is present with an explicit null is set to null.  In particular a
payload omitting `status` leaves `status = "open"` and a payload with
`status = null` sets it to null. -/
theorem merge_patch_semantics (t : Ticket) (data : List (String × PyValue))
    (files : Uploads) (res : Ticket)
    (h : populateTicket t data files = .ok res) :
    ((("camera_id" : String) ∉ data.map Prod.fst →
        res.camera_id = t.camera_id) ∧
     (data.lookup "camera_id" = some .vNone → res.camera_id = none)) ∧
    ((("spot_number" : String) ∉ data.map Prod.fst →
        res.spot_number = t.spot_number) ∧
     (data.lookup "spot_number" = some .vNone → res.spot_number = none)) ∧
    ((("confidence" : String) ∉ data.map Prod.fst →
        res.confidence = t.confidence) ∧
     (data.lookup "confidence" = some .vNone → res.confidence = none)) ∧
    ((("parkonic_trip_id" : String) ∉ data.map Prod.fst →
        res.parkonic_trip_id = t.parkonic_trip_id) ∧
     (data.lookup "parkonic_trip_id" = some .vNone →
        res.parkonic_trip_id = none)) ∧
    ((("entry_time" : String) ∉ data.map Prod.fst →
        res.entry_time = t.entry_time) ∧
     (data.lookup "entry_time" = some .vNone → res.entry_time = none)) ∧
    ((("exit_time" : String) ∉ data.map Prod.fst →
        res.exit_time = t.exit_time) ∧
     (data.lookup "exit_time" = some .vNone → res.exit_time = none)) ∧
    ((("process_time_in" : String) ∉ data.map Prod.fst →
        res.process_time_in = t.process_time_in) ∧
     (data.lookup "process_time_in" = some .vNone →
        res.process_time_in = none)) ∧
    ((("process_time_out" : String) ∉ data.map Prod.fst →
        res.process_time_out = t.process_time_out) ∧
     (data.lookup "process_time_out" = some .vNone →
        res.process_time_out = none)) ∧
    ((("zone_name" : String) ∉ data.map Prod.fst →
        res.zone_name = t.zone_name) ∧
     (data.lookup "zone_name" = some .vNone → res.zone_name = .vNone)) ∧
    ((("camera_ip" : String) ∉ data.map Prod.fst →
        res.camera_ip = t.camera_ip) ∧
     (data.lookup "camera_ip" = some .vNone → res.camera_ip = .vNone)) ∧
    ((("zone_region" : String) ∉ data.map Prod.fst →
        res.zone_region = t.zone_region) ∧
     (data.lookup "zone_region" = some .vNone → res.zone_region = .vNone)) ∧
    ((("plate_number" : String) ∉ data.map Prod.fst →
        res.plate_number = t.plate_number) ∧
     (data.lookup "plate_number" = some .vNone → res.plate_number = .vNone)) ∧
    ((("plate_code" : String) ∉ data.map Prod.fst →
        res.plate_code = t.plate_code) ∧
     (data.lookup "plate_code" = some .vNone → res.plate_code = .vNone)) ∧
    ((("plate_city" : String) ∉ data.map Prod.fst →
        res.plate_city = t.plate_city) ∧
     (data.lookup "plate_city" = some .vNone → res.plate_city = .vNone)) ∧
    ((("status" : String) ∉ data.map Prod.fst → res.status = t.status) ∧
     (data.lookup "status" = some .vNone → res.status = .vNone)) ∧
    ((("image_base64" : String) ∉ data.map Prod.fst →
        res.image_base64 = t.image_base64) ∧
     (data.lookup "image_base64" = some .vNone →
        res.image_base64 = .vNone)) ∧
    ((("exit_clip_path" : String) ∉ data.map Prod.fst →
        res.exit_clip_path = t.exit_clip_path) ∧
     (data.lookup "exit_clip_path" = some .vNone →
        res.exit_clip_path = .vNone)) ∧
    ((files.crop_image = none → ("crop_image_path" : String) ∉ data.map Prod.fst →
        res.crop_image_path = t.crop_image_path) ∧
     (files.crop_image = none →
        data.lookup "crop_image_path" = some .vNone →
        res.crop_image_path = .vNone)) ∧
    ((files.entry_image = none → ("entry_image_path" : String) ∉ data.map Prod.fst →
        res.entry_image_path = t.entry_image_path) ∧
     (files.entry_image = none →
        data.lookup "entry_image_path" = some .vNone →
        res.entry_image_path = .vNone)) ∧
    ((files.exit_image = none → ("exit_image_path" : String) ∉ data.map Prod.fst →
        res.exit_image_path = t.exit_image_path) ∧
     (files.exit_image = none →
        data.lookup "exit_image_path" = some .vNone →
        res.exit_image_path = .vNone)) := by
  obtain ⟨p, hx, rfl⟩ := populate_ok t data files res h
  obtain ⟨e1, e2, e3, e4, e5, e6, e7, e8, r1, r2, r3, r4, r5, r6, r7, r8,
    r9, r10, r11, r12⟩ := extract_fields data p hx
  refine ⟨⟨?_, ?_⟩, ⟨?_, ?_⟩, ⟨?_, ?_⟩, ⟨?_, ?_⟩, ⟨?_, ?_⟩, ⟨?_, ?_⟩,
    ⟨?_, ?_⟩, ⟨?_, ?_⟩, ⟨?_, ?_⟩, ⟨?_, ?_⟩, ⟨?_, ?_⟩, ⟨?_, ?_⟩, ⟨?_, ?_⟩,
    ⟨?_, ?_⟩, ⟨?_, ?_⟩, ⟨?_, ?_⟩, ⟨?_, ?_⟩, ⟨?_, ?_⟩, ⟨?_, ?_⟩, ⟨?_, ?_⟩⟩
  · intro hm
    have hpc := int_field_none _ _ (dget_of_not_mem data _ hm) e1
    simp only [populateMerge]
    rw [hpc]
    exact mergeTyped_absent _ _ _ hm
  · intro hl
    have hpc := int_field_none _ _ (dget_of_lookup_vNone data _ hl) e1
    simp only [populateMerge]
    rw [hpc]
    exact mergeTyped_null _ _ _ (mem_of_lookup_eq_some _ _ _ hl)
  · intro hm
    have hpc := int_field_none _ _ (dget_of_not_mem data _ hm) e2
    simp only [populateMerge]
    rw [hpc]
    exact mergeTyped_absent _ _ _ hm
  · intro hl
    have hpc := int_field_none _ _ (dget_of_lookup_vNone data _ hl) e2
    simp only [populateMerge]
    rw [hpc]
    exact mergeTyped_null _ _ _ (mem_of_lookup_eq_some _ _ _ hl)
  · intro hm
    have hpc := int_field_none _ _ (dget_of_not_mem data _ hm) e3
    simp only [populateMerge]
    rw [hpc]
    exact mergeTyped_absent _ _ _ hm
  · intro hl
    have hpc := int_field_none _ _ (dget_of_lookup_vNone data _ hl) e3
    simp only [populateMerge]
    rw [hpc]
    exact mergeTyped_null _ _ _ (mem_of_lookup_eq_some _ _ _ hl)
  · intro hm
    have hpc := int_field_none _ _ (dget_of_not_mem data _ hm) e6
    simp only [populateMerge]
    rw [hpc]
    exact mergeTyped_absent _ _ _ hm
  · intro hl
    have hpc := int_field_none _ _ (dget_of_lookup_vNone data _ hl) e6
    simp only [populateMerge]
    rw [hpc]
    exact mergeTyped_null _ _ _ (mem_of_lookup_eq_some _ _ _ hl)
  · intro hm
    have hpc := dt_field_none _ _ (dget_of_not_mem data _ hm) e4
    simp only [populateMerge]
    rw [hpc]
    exact mergeTyped_absent _ _ _ hm
  · intro hl
    have hpc := dt_field_none _ _ (dget_of_lookup_vNone data _ hl) e4
    simp only [populateMerge]
    rw [hpc]
    exact mergeTyped_null _ _ _ (mem_of_lookup_eq_some _ _ _ hl)
  · intro hm
    have hpc := dt_field_none _ _ (dget_of_not_mem data _ hm) e5
    simp only [populateMerge]
    rw [hpc]
    exact mergeTyped_absent _ _ _ hm
  · intro hl
    have hpc := dt_field_none _ _ (dget_of_lookup_vNone data _ hl) e5
    simp only [populateMerge]
    rw [hpc]
    exact mergeTyped_null _ _ _ (mem_of_lookup_eq_some _ _ _ hl)
  · intro hm
    have hpc := dt_field_none _ _ (dget_of_not_mem data _ hm) e7
    simp only [populateMerge]
    rw [hpc]
    exact mergeTyped_absent _ _ _ hm
  · intro hl
    have hpc := dt_field_none _ _ (dget_of_lookup_vNone data _ hl) e7
    simp only [populateMerge]
    rw [hpc]
    exact mergeTyped_null _ _ _ (mem_of_lookup_eq_some _ _ _ hl)
  · intro hm
    have hpc := dt_field_none _ _ (dget_of_not_mem data _ hm) e8
    simp only [populateMerge]
    rw [hpc]
    exact mergeTyped_absent _ _ _ hm
  · intro hl
    have hpc := dt_field_none _ _ (dget_of_lookup_vNone data _ hl) e8
    simp only [populateMerge]
    rw [hpc]
    exact mergeTyped_null _ _ _ (mem_of_lookup_eq_some _ _ _ hl)
  · intro hm
    simp only [populateMerge]
    rw [r1, dget_of_not_mem data _ hm]
    exact mergeRaw_vNone_absent _ _ _ hm
  · intro hl
    simp only [populateMerge]
    rw [r1, dget_of_lookup_vNone data _ hl]
    exact mergeRaw_vNone_null _ _ _ (mem_of_lookup_eq_some _ _ _ hl)
  · intro hm
    simp only [populateMerge]
    rw [r2, dget_of_not_mem data _ hm]
    exact mergeRaw_vNone_absent _ _ _ hm
  · intro hl
    simp only [populateMerge]
    rw [r2, dget_of_lookup_vNone data _ hl]
    exact mergeRaw_vNone_null _ _ _ (mem_of_lookup_eq_some _ _ _ hl)
  · intro hm
    simp only [populateMerge]
    rw [r3, dget_of_not_mem data _ hm]
    exact mergeRaw_vNone_absent _ _ _ hm
  · intro hl
    simp only [populateMerge]
    rw [r3, dget_of_lookup_vNone data _ hl]
    exact mergeRaw_vNone_null _ _ _ (mem_of_lookup_eq_some _ _ _ hl)
  · intro hm
    simp only [populateMerge]
    rw [r4, dget_of_not_mem data _ hm]
    exact mergeRaw_vNone_absent _ _ _ hm
  · intro hl
    simp only [populateMerge]
    rw [r4, dget_of_lookup_vNone data _ hl]
    exact mergeRaw_vNone_null _ _ _ (mem_of_lookup_eq_some _ _ _ hl)
  · intro hm
    simp only [populateMerge]
    rw [r5, dget_of_not_mem data _ hm]
    exact mergeRaw_vNone_absent _ _ _ hm
  · intro hl
    simp only [populateMerge]
    rw [r5, dget_of_lookup_vNone data _ hl]
    exact mergeRaw_vNone_null _ _ _ (mem_of_lookup_eq_some _ _ _ hl)
  · intro hm
    simp only [populateMerge]
    rw [r6, dget_of_not_mem data _ hm]
    exact mergeRaw_vNone_absent _ _ _ hm
  · intro hl
    simp only [populateMerge]
    rw [r6, dget_of_lookup_vNone data _ hl]
    exact mergeRaw_vNone_null _ _ _ (mem_of_lookup_eq_some _ _ _ hl)
  · intro hm
    simp only [populateMerge]
    rw [r7, dget_of_not_mem data _ hm]
    exact mergeRaw_vNone_absent _ _ _ hm
  · intro hl
    simp only [populateMerge]
    rw [r7, dget_of_lookup_vNone data _ hl]
    exact mergeRaw_vNone_null _ _ _ (mem_of_lookup_eq_some _ _ _ hl)
  · intro hm
    simp only [populateMerge]
    rw [r8, dget_of_not_mem data _ hm]
    exact mergeRaw_vNone_absent _ _ _ hm
  · intro hl
    simp only [populateMerge]
    rw [r8, dget_of_lookup_vNone data _ hl]
    exact mergeRaw_vNone_null _ _ _ (mem_of_lookup_eq_some _ _ _ hl)
  · intro hm
    simp only [populateMerge]
    rw [r12, dget_of_not_mem data _ hm]
    exact mergeRaw_vNone_absent _ _ _ hm
  · intro hl
    simp only [populateMerge]
    rw [r12, dget_of_lookup_vNone data _ hl]
    exact mergeRaw_vNone_null _ _ _ (mem_of_lookup_eq_some _ _ _ hl)
  · intro hf hm
    simp only [populateMerge]
    rw [hf, pyOr_none, if_neg hm]
    exact mergeRaw_self _ _ _ hm
  · intro hf hl
    have hmem := mem_of_lookup_eq_some _ _ _ hl
    simp only [populateMerge]
    rw [hf, pyOr_none, if_pos hmem, r9, dget_of_lookup_vNone data _ hl]
    exact mergeRaw_vNone_null _ _ _ hmem
  · intro hf hm
    simp only [populateMerge]
    rw [hf, pyOr_none, if_neg hm]
    exact mergeRaw_self _ _ _ hm
  · intro hf hl
    have hmem := mem_of_lookup_eq_some _ _ _ hl
    simp only [populateMerge]
    rw [hf, pyOr_none, if_pos hmem, r10, dget_of_lookup_vNone data _ hl]
    exact mergeRaw_vNone_null _ _ _ hmem
  · intro hf hm
    simp only [populateMerge]
    rw [hf, pyOr_none, if_neg hm]
    exact mergeRaw_self _ _ _ hm
  · intro hf hl
    have hmem := mem_of_lookup_eq_some _ _ _ hl
    simp only [populateMerge]
    rw [hf, pyOr_none, if_pos hmem, r11, dget_of_lookup_vNone data _ hl]
    exact mergeRaw_vNone_null _ _ _ hmem

/-- The existing record with `status = "open"` used by the merge-patch
witness. -/
def mpTicket : Ticket := { status := .vStr "open", created_at := some rtInstant }

/-- `mpTicket` after an update whose payload contains `status = null`. -/
def mpNulled : Ticket := { mpTicket with status := .vNone }

/-- Witness for C1: updating `mpTicket` with an empty payload leaves
`status = "open"`; updating it with `{"status": null}` sets status to
null. -/
theorem merge_patch_semantics_witness :
    mpTicket.status = PyValue.vStr "open" ∧ mpNulled.status = .vNone := by
  constructor
  · have h := merge_patch_semantics mpTicket [] ⟨none, none, none⟩ mpTicket rfl
    obtain ⟨-, -, -, -, -, -, -, -, -, -, -, -, -, -, hs, -⟩ := h
    exact (hs.1 (by simp)).trans rfl
  · have h := merge_patch_semantics mpTicket [("status", PyValue.vNone)]
      ⟨none, none, none⟩ mpNulled rfl
    obtain ⟨-, -, -, -, -, -, -, -, -, -, -, -, -, -, hs, -⟩ := h
    exact hs.2 rfl
